import Mathlib

/-!
Shallow embedding of `gcloud/datastore/model.py` (Python 2): the declarative
schema layer (Key construction, the Property descriptor pipeline, typed
Property variants, the kind registry and batch retrieval).

Modelling conventions:
- Python runtime values are the inductive `PyVal`; Python `None` is the
  constructor `PyVal.none`.  Python 2 `str` (a byte string) and `unicode`
  both carry a Lean `String`; UTF-8 decoding of a well-formed byte string
  is modelled as the identity on the carried text (no claim exercises
  malformed byte sequences).  Python floats are modelled as rationals;
  no claim exercises float arithmetic or float formatting.
- Fallible Python code (a failed `assert`, an unbound name, a missing
  attribute, an unregistered dict key, an explicit `raise`) is modelled
  with `Except PyErr`.
- The module never imports `zlib` nor `pickle`, so evaluating
  `zlib.compress`, `zlib.decompress`, `pickle.dumps` or `pickle.loads`
  raises `NameError` at call time; this is modelled as `PyErr.nameError`.
-/

/-- Python exception classes raised by the module (directly or by the
runtime): `assert` failures, unbound-name lookups, attribute lookups on
`None`, dict `KeyError`, `json` type/decoding errors, the explicit
`SyntaxError` in `Key.__init__`, and `raise NotImplementedError()`. -/
inductive PyErr where
  | assertionError
  | nameError
  | attributeError
  | keyError
  | typeError
  | valueError
  | syntaxError
  | notImplementedError
deriving DecidableEq, Repr

/-- A `datetime.datetime` value (year, month, day, hour, minute, second,
microsecond).  Calendar arithmetic is not needed by any claim. -/
structure DT where
  year : Nat
  month : Nat
  day : Nat
  hour : Nat
  minute : Nat
  second : Nat
  microsecond : Nat
deriving DecidableEq, Repr

/-- Python runtime values as this module manipulates them.  `str` is the
Python 2 byte string, `unicode` the Python 2 text string (see the header
for the byte-string convention).  `date` and `time` are
`datetime.date` / `datetime.time` values. -/
inductive PyVal where
  | none
  | bool (b : Bool)
  | int (n : Int)
  | float (q : ℚ)
  | str (s : String)
  | unicode (s : String)
  | datetime (dt : DT)
  | date (year month day : Nat)
  | time (hour minute second microsecond : Nat)
deriving DecidableEq, Repr

/-- The constructor keyword arguments stored on every `Property`
(`Property.__init__`): `_name`, `_indexed`, `_repeated`, `_required`,
`_default`, `_choices`, `_validator`.  The custom validator is modelled
as a function of the value alone (the `self` argument carries no data
the validator result depends on in this embedding). -/
structure PConfig where
  name : Option String := Option.none
  indexed : Bool := true
  repeated : Bool := false
  required : Bool := false
  default : PyVal := PyVal.none
  choices : Option (List PyVal) := Option.none
  validator : Option (PyVal → Except PyErr PyVal) := Option.none

/-- Which `Property` subclass a descriptor belongs to.  `BlobProperty`
and `JsonProperty` carry their `_compressed` flag (an instance attribute
in the source) as a parameter; `TextProperty` and `StringProperty`
override both conversion hooks, so their inherited `_compressed` flag
never affects a conversion. -/
inductive PropKind where
  | base
  | boolean
  | integer
  | float
  | blob (compressed : Bool)
  | text
  | string
  | pickle
  | json (compressed : Bool)
  | datetime
  | date
  | time
deriving DecidableEq, Repr

/-- The membership test of `assert self._choices is None or value in
self._choices` in `Property.validate`. -/
def choiceCheck (choices : Option (List PyVal)) (value : PyVal) : Bool :=
  match choices with
  | Option.none => true
  | Option.some cs => decide (value ∈ cs)

/-- The per-subclass `_validate` hook.  Notes traced from the source:

- `IntegerProperty._validate` uses `isinstance(value, (int, long))` and
  `FloatProperty._validate` uses `isinstance(value, (int, long, float))`;
  in Python 2 `bool` is a subclass of `int`, so booleans pass both.
- `TextProperty._validate` decodes a byte string to text before the
  `isinstance(value, unicode)` assert.
- `DateProperty._validate` uses `isinstance(value, datetime.date)`, and
  `datetime.datetime` is a subclass of `datetime.date`, so datetimes pass.
- `PickleProperty._validate` and `JsonProperty._validate` accept anything.

Each hook returns its coerced value, but `Property.validate` discards
that result (it binds it to `v` and never uses `v`). -/
def validateHook (k : PropKind) (value : PyVal) : Except PyErr PyVal :=
  match k with
  | PropKind.base => Except.ok value
  | PropKind.boolean =>
    match value with
    | PyVal.bool _ => Except.ok value
    | _ => Except.error PyErr.assertionError
  | PropKind.integer =>
    match value with
    | PyVal.int n => Except.ok (PyVal.int n)
    | PyVal.bool b => Except.ok (PyVal.int (if b then 1 else 0))
    | _ => Except.error PyErr.assertionError
  | PropKind.float =>
    match value with
    | PyVal.float q => Except.ok (PyVal.float q)
    | PyVal.int n => Except.ok (PyVal.float (n : ℚ))
    | PyVal.bool b => Except.ok (PyVal.float (if b then 1 else 0))
    | _ => Except.error PyErr.assertionError
  | PropKind.blob _ =>
    match value with
    | PyVal.str _ => Except.ok value
    | _ => Except.error PyErr.assertionError
  | PropKind.text | PropKind.string =>
    match value with
    | PyVal.str s => Except.ok (PyVal.unicode s)
    | PyVal.unicode _ => Except.ok value
    | _ => Except.error PyErr.assertionError
  | PropKind.pickle | PropKind.json _ => Except.ok value
  | PropKind.datetime =>
    match value with
    | PyVal.datetime _ => Except.ok value
    | _ => Except.error PyErr.assertionError
  | PropKind.date =>
    match value with
    | PyVal.date _ _ _ => Except.ok value
    | PyVal.datetime _ => Except.ok value
    | _ => Except.error PyErr.assertionError
  | PropKind.time =>
    match value with
    | PyVal.time _ _ _ _ => Except.ok value
    | _ => Except.error PyErr.assertionError

/-- `Property.validate`, line by line:
first the choice-set assert, then
`assert not (self._required and not value is None)` (note the inverted
placement of `not`: the assert rejects a required property's PRESENT
value and lets `None` through), then the `None` early return (a bare
Python `return`, i.e. `None`), then the `_validate` hook (result
discarded), then the custom validator, whose result is returned when one
is supplied; otherwise the ORIGINAL value is returned. -/
def validate (k : PropKind) (cfg : PConfig) (value : PyVal) : Except PyErr PyVal :=
  if choiceCheck cfg.choices value = false then Except.error PyErr.assertionError
  else if cfg.required = true ∧ value ≠ PyVal.none then Except.error PyErr.assertionError
  else if value = PyVal.none then Except.ok PyVal.none
  else
    match validateHook k value with
    | Except.error e => Except.error e
    | Except.ok _ =>
      match cfg.validator with
      | Option.some f => f value
      | Option.none => Except.ok value

/-- Serialization of `json.dumps` restricted to the scalar values
representable in `PyVal` (the only values any claim feeds it); string
escaping and the float format are not exercised by any claim.
Values with no JSON encoding raise `TypeError`. -/
def jsonDumps (value : PyVal) : Except PyErr String :=
  match value with
  | PyVal.none => Except.ok "null"
  | PyVal.bool true => Except.ok "true"
  | PyVal.bool false => Except.ok "false"
  | PyVal.int n => Except.ok (toString n)
  | PyVal.float q => Except.ok (toString q)
  | PyVal.str s => Except.ok ("\"" ++ s ++ "\"")
  | PyVal.unicode s => Except.ok ("\"" ++ s ++ "\"")
  | _ => Except.error PyErr.typeError

/-- Parsing of `json.loads` on the scalar outputs of `jsonDumps`
(`json.loads` returns text strings as `unicode`).  Input that parses as
none of these raises `ValueError`. -/
def jsonParse (s : String) : Except PyErr PyVal :=
  if s = "null" then Except.ok PyVal.none
  else if s = "true" then Except.ok (PyVal.bool true)
  else if s = "false" then Except.ok (PyVal.bool false)
  else if s.startsWith "\"" ∧ s.endsWith "\"" ∧ 2 ≤ s.length then
    Except.ok (PyVal.unicode ((s.drop 1).dropRight 1))
  else
    match s.toInt? with
    | Option.some n => Except.ok (PyVal.int n)
    | Option.none => Except.error PyErr.valueError

/-- `json.loads` applied to a stored base value: it requires a string
argument (`TypeError` otherwise). -/
def jsonLoadsVal (value : PyVal) : Except PyErr PyVal :=
  match value with
  | PyVal.str s => jsonParse s
  | PyVal.unicode s => jsonParse s
  | _ => Except.error PyErr.typeError

/-- The per-subclass `_to_base_type` hook.  Notes traced from the source:

- `BlobProperty._to_base_type` with `_compressed` set evaluates
  `zlib.compress(value)`, and `zlib` is never imported: `NameError`.
- `PickleProperty._to_base_type` evaluates `pickle.dumps(...)` and
  `pickle` is never imported: `NameError`.
- `JsonProperty._to_base_type` is `json.dumps` then the blob hook.
- `TextProperty._to_base_type` decodes a byte string, else identity.
- `DateProperty._to_base_type` reads `value.year/.month/.day` (present on
  both `date` and `datetime` values) and builds a midnight datetime;
  `TimeProperty._to_base_type` reads `value.hour/.minute/.second/
  .microsecond` (present on both `time` and `datetime` values) and
  builds a datetime on 1970-01-01; any other value raises
  `AttributeError`.
- every other subclass inherits the identity hook. -/
def toBaseHook (k : PropKind) (value : PyVal) : Except PyErr PyVal :=
  match k with
  | PropKind.base | PropKind.boolean | PropKind.integer | PropKind.float
  | PropKind.datetime => Except.ok value
  | PropKind.blob c =>
    if c = true then Except.error PyErr.nameError else Except.ok value
  | PropKind.text | PropKind.string =>
    match value with
    | PyVal.str s => Except.ok (PyVal.unicode s)
    | _ => Except.ok value
  | PropKind.pickle => Except.error PyErr.nameError
  | PropKind.json c =>
    match jsonDumps value with
    | Except.error e => Except.error e
    | Except.ok s =>
      if c = true then Except.error PyErr.nameError else Except.ok (PyVal.str s)
  | PropKind.date =>
    match value with
    | PyVal.date y m d => Except.ok (PyVal.datetime ⟨y, m, d, 0, 0, 0, 0⟩)
    | PyVal.datetime dt => Except.ok (PyVal.datetime ⟨dt.year, dt.month, dt.day, 0, 0, 0, 0⟩)
    | _ => Except.error PyErr.attributeError
  | PropKind.time =>
    match value with
    | PyVal.time h mi s us => Except.ok (PyVal.datetime ⟨1970, 1, 1, h, mi, s, us⟩)
    | PyVal.datetime dt =>
      Except.ok (PyVal.datetime ⟨1970, 1, 1, dt.hour, dt.minute, dt.second, dt.microsecond⟩)
    | _ => Except.error PyErr.attributeError

/-- The per-subclass `_from_base_type` hook.  Notes traced from the source:

- `BlobProperty._from_base_type` with `_compressed` set evaluates
  `zlib.decompress(value.z_val)`; the name `zlib` is unbound (`NameError`
  is raised before the — also nonexistent — `z_val` attribute is read).
- `PickleProperty._from_base_type` evaluates `pickle.loads(...)`; the
  callable `pickle.loads` is resolved before its argument, and `pickle`
  is unbound: `NameError`.
- `TextProperty._from_base_type` handles `str` and `unicode` and falls
  off the end for anything else, returning `None`.
- `JsonProperty._from_base_type` is the blob hook then `json.loads`.
- `DateProperty._from_base_type` calls `value.date()` (a method only
  datetime values have) and `TimeProperty._from_base_type` calls
  `value.time()`; other values raise `AttributeError`.
- every other subclass inherits the identity hook. -/
def fromBaseHook (k : PropKind) (value : PyVal) : Except PyErr PyVal :=
  match k with
  | PropKind.base | PropKind.boolean | PropKind.integer | PropKind.float
  | PropKind.datetime => Except.ok value
  | PropKind.blob c =>
    if c = true then Except.error PyErr.nameError else Except.ok value
  | PropKind.text | PropKind.string =>
    match value with
    | PyVal.str s => Except.ok (PyVal.unicode s)
    | PyVal.unicode s => Except.ok (PyVal.unicode s)
    | _ => Except.ok PyVal.none
  | PropKind.pickle => Except.error PyErr.nameError
  | PropKind.json c =>
    if c = true then Except.error PyErr.nameError else jsonLoadsVal value
  | PropKind.date =>
    match value with
    | PyVal.datetime dt => Except.ok (PyVal.date dt.year dt.month dt.day)
    | _ => Except.error PyErr.attributeError
  | PropKind.time =>
    match value with
    | PyVal.datetime dt => Except.ok (PyVal.time dt.hour dt.minute dt.second dt.microsecond)
    | _ => Except.error PyErr.attributeError

/-- The per-subclass `_from_db_value` hook: identity everywhere except
`TextProperty` (inherited by `StringProperty`), which decodes a byte
string. -/
def fromDbHook (k : PropKind) (value : PyVal) : Except PyErr PyVal :=
  match k with
  | PropKind.text | PropKind.string =>
    match value with
    | PyVal.str s => Except.ok (PyVal.unicode s)
    | _ => Except.ok value
  | _ => Except.ok value

/-- `Property.to_base_type`: the `None` short-circuit, then the hook. -/
def to_base_type (k : PropKind) (value : PyVal) : Except PyErr PyVal :=
  if value = PyVal.none then Except.ok PyVal.none else toBaseHook k value

/-- `Property.from_base_type`: the `None` short-circuit, then the hook. -/
def from_base_type (k : PropKind) (value : PyVal) : Except PyErr PyVal :=
  if value = PyVal.none then Except.ok PyVal.none else fromBaseHook k value

/-- `Property.from_db_value`: delegates to the hook with NO `None`
short-circuit (the identity hooks pass `None` through anyway). -/
def from_db_value (k : PropKind) (value : PyVal) : Except PyErr PyVal :=
  fromDbHook k value

/-- A Model instance's stored raw value for one field: `Option.none`
when the field was never stored.  `instance.get(name)` is a dict lookup
defaulting to `None`. -/
def instGet (st : Option PyVal) : PyVal :=
  st.getD PyVal.none

/-- `Property.__get__`: `self.from_base_type(instance.get(self._name))`.
Only the storage name is read from `self`; no other configuration (in
particular not `_default`) is consulted. -/
def pget (k : PropKind) (st : Option PyVal) : Except PyErr PyVal :=
  from_base_type k (instGet st)

/-- `Property.__set__`: `value = self.validate(value)` then
`instance[self._name] = self.to_base_type(value)`.  Returns the raw
value stored into the instance dict; on an exception nothing is
stored. -/
def pset (k : PropKind) (cfg : PConfig) (value : PyVal) : Except PyErr PyVal :=
  match validate k cfg value with
  | Except.error e => Except.error e
  | Except.ok v => to_base_type k v

/-- A path segment identifier: `{'id': n}` for integral identifiers,
`{'name': s}` for string identifiers (`Key.__init__`). -/
inductive PyIdent where
  | id (n : Int)
  | name (s : String)
deriving DecidableEq, Repr

/-- One element of the path list built by `Key.__init__`: the kind value
is stored as given (no type check is applied to it), only the identifier
is classified. -/
structure PathElem where
  kind : PyVal
  ident : PyIdent
deriving DecidableEq, Repr

/-- Classification of a pair's identifier in `Key.__init__`:
`isinstance(_id, (int, long))` gives a numeric segment (in Python 2 a
bool is an int: `True` is 1, `False` is 0), `isinstance(_id,
basestring)` (both `str` and `unicode`) gives a named segment, anything
else raises the explicit `SyntaxError`. -/
def classifyId (v : PyVal) : Except PyErr PyIdent :=
  match v with
  | PyVal.int n => Except.ok (PyIdent.id n)
  | PyVal.bool b => Except.ok (PyIdent.id (if b then 1 else 0))
  | PyVal.str s => Except.ok (PyIdent.name s)
  | PyVal.unicode s => Except.ok (PyIdent.name s)
  | _ => Except.error PyErr.syntaxError

/-- The loop `for kind, _id in pairs` of `Key.__init__`, appending one
path element per pair; the first invalid identifier aborts the loop. -/
def buildPath (pairs : List (PyVal × PyVal)) : Except PyErr (List PathElem) :=
  match pairs with
  | [] => Except.ok []
  | (k, i) :: rest =>
    match classifyId i with
    | Except.error e => Except.error e
    | Except.ok ident =>
      match buildPath rest with
      | Except.error e => Except.error e
      | Except.ok tail => Except.ok (⟨k, ident⟩ :: tail)

/-- The comprehension `[(flat[i], flat[i+1]) for i in range(0, len(flat), 2)]`
(only evaluated after the even-length assert). -/
def chunkPairs (flat : List PyVal) : List (PyVal × PyVal) :=
  match flat with
  | a :: b :: rest => (a, b) :: chunkPairs rest
  | _ => []

/-- Python truthiness of an optional-list argument: `None` and the empty
list are both falsy (`if not path`, `if not pairs`, `if not flat`). -/
def truthy {α : Type} (o : Option (List α)) : Option (List α) :=
  match o with
  | Option.none => Option.none
  | Option.some [] => Option.none
  | Option.some (x :: xs) => Option.some (x :: xs)

/-- `Key.__init__`, returning the path it hands to the base-class
constructor (the `namespace` and `dataset_id` keywords are forwarded to
the external `gcloud.datastore.key.Key` unchanged and do not affect the
path).  A truthy `urlsafe` raises `NotImplementedError`; a truthy `path`
is used as given; otherwise truthy `pairs`, else truthy `flat`, else the
positional arguments, are decomposed: the even-length assert, the pair
chunking, and the classification loop. -/
def keyInit (args : List PyVal) (pairs : Option (List (PyVal × PyVal)))
    (flat : Option (List PyVal)) (path : Option (List PathElem))
    (urlsafe : Bool) : Except PyErr (List PathElem) :=
  if urlsafe = true then Except.error PyErr.notImplementedError
  else
    match truthy path with
    | Option.some p => Except.ok p
    | Option.none =>
      match truthy pairs with
      | Option.some ps => buildPath ps
      | Option.none =>
        let fl : List PyVal :=
          match truthy flat with
          | Option.some f => f
          | Option.none => args
        if fl.length % 2 = 0 then buildPath (chunkPairs fl)
        else Except.error PyErr.assertionError

/-- The configuration built by `BlobProperty.__init__`: the base
`Property` fields plus `_compressed`. -/
structure BlobConfig where
  base : PConfig
  compressed : Bool

/-- `BlobProperty.__init__`: the base constructor runs first (it always
succeeds), then `assert not (compressed and self._indexed)` — note
`indexed` defaults to `True`, so a compressed blob property must be
declared with `indexed=False` to construct at all. -/
def blobPropertyInit (compressed : Bool) (cfg : PConfig) : Except PyErr BlobConfig :=
  if compressed = true ∧ cfg.indexed = true then Except.error PyErr.assertionError
  else Except.ok ⟨cfg, compressed⟩

/-- The configuration built by `DateTimeProperty.__init__`: the base
`Property` fields plus `_auto_now_add` and `_auto_now`. -/
structure DateTimeConfig where
  base : PConfig
  auto_now_add : Bool
  auto_now : Bool

/-- `DateTimeProperty.__init__`:
`assert not ((auto_now_add or auto_now) and kwargs.get("repeated", False))`
runs before the base constructor. -/
def dateTimePropertyInit (auto_now_add auto_now : Bool) (cfg : PConfig) :
    Except PyErr DateTimeConfig :=
  if (auto_now_add = true ∨ auto_now = true) ∧ cfg.repeated = true then
    Except.error PyErr.assertionError
  else Except.ok ⟨cfg, auto_now_add, auto_now⟩

/-- `DateTimeProperty._prepare_for_put` on one field of one instance:
`getattr` goes through `Property.__get__` (`pget`) and `setattr` goes
through `Property.__set__` (`pset`, whose result becomes the new stored
raw value).  `_now()` is called afresh at each `setattr`; both calls are
modelled with the single timestamp `now` (when both branches fire, the
field ends at the later call's timestamp, which the single parameter
also yields).  The first branch fires when the read value is `None` and
`_auto_now_add` is set; the second fires whenever `_auto_now` is set. -/
def dateTimePrepareForPut (c : DateTimeConfig) (now : DT) (st : Option PyVal) :
    Except PyErr (Option PyVal) :=
  match pget PropKind.datetime st with
  | Except.error e => Except.error e
  | Except.ok v =>
    let step1 : Except PyErr (Option PyVal) :=
      if v = PyVal.none ∧ c.auto_now_add = true then
        match pset PropKind.datetime c.base (PyVal.datetime now) with
        | Except.error e => Except.error e
        | Except.ok raw => Except.ok (Option.some raw)
      else Except.ok st
    match step1 with
    | Except.error e => Except.error e
    | Except.ok st1 =>
      if c.auto_now = true then
        match pset PropKind.datetime c.base (PyVal.datetime now) with
        | Except.error e => Except.error e
        | Except.ok raw => Except.ok (Option.some raw)
      else Except.ok st1

/-- A raw stored entity as handed back by the external fetch: its key's
kind plus the storage-name to raw-value mapping (`entity.get(name)`
defaults to `None` for an absent field). -/
structure RawEntity where
  kind : String
  fields : List (String × PyVal)

/-- A per-Model schema: the `_properties` mapping from storage name to
its Property, here the name paired with the Property's kind (the
configuration plays no role in `from_entity`). -/
def Schema : Type := List (String × PropKind)

/-- The global `Model._kind_map` kind registry: kind name to the
registered subclass, represented by its kind name and schema. -/
def Registry : Type := List (String × Schema)

/-- Field lookup on a raw entity: `entity.get(name)`, `None` when
absent. -/
def entGet (e : RawEntity) (n : String) : PyVal :=
  match e.fields.find? (fun p => p.1 = n) with
  | Option.some p => p.2
  | Option.none => PyVal.none

/-- A typed Model instance as built by `from_entity`: the subclass it
was built through (its kind) and its stored raw field mapping. -/
structure ModelInst where
  kind : String
  fields : List (String × PyVal)
deriving Repr

/-- `Model.from_entity`: a fresh instance whose every schema field is
populated with `from_db_value` of the raw field (the `_from_db_value`
hooks are total, so this never raises; the fallible result of
`from_db_value` is collapsed with its identity/decoding value). -/
def fromEntity (kindName : String) (sch : Schema) (e : RawEntity) : ModelInst :=
  ⟨kindName,
   sch.map (fun p =>
     (p.1,
      match from_db_value p.2 (entGet e p.1) with
      | Except.ok v => v
      | Except.error _ => PyVal.none))⟩

/-- `Model._lookup_model`: `cls._kind_map[kind]`, raising `KeyError`
(the spec's UnknownKindError) for an unregistered kind. -/
def lookupModel (reg : Registry) (kind : String) : Except PyErr (String × Schema) :=
  match reg.find? (fun p => p.1 = kind) with
  | Option.some p => Except.ok p
  | Option.none => Except.error PyErr.keyError

/-- The loop body of the module-level `get_multi`, accumulating
`results`.  Traced from the source: when an entity slot is `None` the
loop appends `None` to `results` but does NOT skip the rest of the body
(there is no `else` or `continue`), so `entity.key()` is evaluated on
`None` and raises `AttributeError`, aborting the whole call. -/
def getMultiLoop (reg : Registry) (entities : List (Option RawEntity))
    (acc : List (Option ModelInst)) : Except PyErr (List (Option ModelInst)) :=
  match entities with
  | [] => Except.ok acc.reverse
  | Option.none :: _ => Except.error PyErr.attributeError
  | Option.some e :: rest =>
    match lookupModel reg e.kind with
    | Except.error err => Except.error err
    | Except.ok ks => getMultiLoop reg rest (Option.some (fromEntity ks.1 ks.2 e) :: acc)

/-- The module-level cross-kind `get_multi`, applied to the sequence the
external `dataset.get_entities(keys)` returned (one optional raw entity
per input key, in input order). -/
def getMultiModule (reg : Registry) (entities : List (Option RawEntity)) :
    Except PyErr (List (Option ModelInst)) :=
  getMultiLoop reg entities []

/-- The class-level `Model.get_multi` loop, for contrast: it has the
correct `if entity is None / else` split and never dereferences an
absent entity. -/
def modelGetMulti (kindName : String) (sch : Schema)
    (entities : List (Option RawEntity)) : List (Option ModelInst) :=
  match entities with
  | [] => []
  | Option.none :: rest => Option.none :: modelGetMulti kindName sch rest
  | Option.some e :: rest => Option.some (fromEntity kindName sch e) :: modelGetMulti kindName sch rest

/-- Sample registry with a single registered kind, used to evaluate the
module-level batch fetch at a concrete input. -/
def regSample : Registry :=
  [("Person", [("name", PropKind.string), ("age", PropKind.integer)])]

theorem pget_datetime_eq (st : Option PyVal) :
    pget PropKind.datetime st = Except.ok (instGet st) := by
  cases st with
  | none => rfl
  | some v =>
    show from_base_type PropKind.datetime v = Except.ok v
    unfold from_base_type
    by_cases h : v = PyVal.none
    · simp [h]
    · simp [h, fromBaseHook]

theorem pset_datetime_of_validate (cfg : PConfig) (w : PyVal) (hw : w ≠ PyVal.none)
    (hv : validate PropKind.datetime cfg w = Except.ok w) :
    pset PropKind.datetime cfg w = Except.ok w := by
  unfold pset
  rw [hv]
  unfold to_base_type
  simp [hw, toBaseHook]

/-- C4: for every Property variant, the absent-value sentinel None passes
through both public conversion directions unchanged:
`to_base_type(None) is None` and `from_base_type(None) is None` (the
`None` short-circuit sits in the base-class methods, in front of every
subclass hook). -/
theorem none_short_circuit_conversions (k : PropKind) :
    to_base_type k PyVal.none = Except.ok PyVal.none ∧
    from_base_type k PyVal.none = Except.ok PyVal.none :=
  ⟨rfl, rfl⟩

/-- C1: the claim says a required Property rejects None and accepts a
present valid value; the code's `assert not (self._required and not
value is None)` has the negation misplaced, so `validate` ACCEPTS the
absent value None (returning None) and REJECTS every present value on a
required Property — here evaluated on the base Property with
`required=True` at None and at the valid value 1. -/
theorem validate_required_inverted :
    validate PropKind.base { required := true } PyVal.none = Except.ok PyVal.none ∧
    validate PropKind.base { required := true } (PyVal.int 1) =
      Except.error PyErr.assertionError :=
  ⟨rfl, rfl⟩

/-- C3: the claim's compressed-blob round trip `from_base_type
(to_base_type b) == b` fails at b = "abc": `zlib` is never imported by
the module, so `BlobProperty._to_base_type` raises `NameError` the
moment it evaluates `zlib.compress` (and `_from_base_type` likewise dies
at `zlib.decompress(value.z_val)`), so the round trip errors instead of
returning b. -/
theorem compressed_blob_roundtrip_errors :
    (to_base_type (PropKind.blob true) (PyVal.str "abc") >>=
        from_base_type (PropKind.blob true)) = Except.error PyErr.nameError ∧
    to_base_type (PropKind.blob true) (PyVal.str "abc") =
      Except.error PyErr.nameError ∧
    from_base_type (PropKind.blob true) (PyVal.str "abc") =
      Except.error PyErr.nameError :=
  ⟨rfl, rfl, rfl⟩

/-- C2: the claim says the module-level cross-kind get_multi yields one
result per input key with None at unresolved positions; in the code the
`if entity is None` branch appends None but does not skip the rest of
the loop body, so `entity.key()` is evaluated on None and the whole call
aborts with `AttributeError` — here evaluated on a single-key fetch that
resolved nothing. -/
theorem get_multi_module_absent_crashes :
    getMultiModule regSample [Option.none] = Except.error PyErr.attributeError :=
  rfl

/-- C7: contradictory Property configuration fails at construction time:
a BlobProperty with `compressed=True, indexed=True` and a
DateTimeProperty combining `auto_now_add=True` or `auto_now=True` with
`repeated=True` all fail their constructor asserts (the spec's
ConfigError). -/
theorem contradictory_config_init_errors :
    blobPropertyInit true { indexed := true } = Except.error PyErr.assertionError ∧
    dateTimePropertyInit true false { repeated := true } =
      Except.error PyErr.assertionError ∧
    dateTimePropertyInit false true { repeated := true } =
      Except.error PyErr.assertionError :=
  ⟨rfl, rfl, rfl⟩

/-- C6: a flattened positional key specification of odd length fails the
even-length assert in `Key.__init__` (the spec's MalformedKeyError) and
no path is constructed. -/
theorem keyInit_odd_flat_errors (flat : List PyVal) (h : flat.length % 2 = 1) :
    keyInit flat Option.none Option.none Option.none false =
      Except.error PyErr.assertionError := by
  have h0 : ¬ flat.length % 2 = 0 := by omega
  simp [keyInit, truthy, h0]

theorem keyInit_odd_flat_errors_witness :
    ([PyVal.str "Person", PyVal.int 1, PyVal.str "Address"].length % 2 = 1) ∧
    keyInit [PyVal.str "Person", PyVal.int 1, PyVal.str "Address"]
        Option.none Option.none Option.none false =
      Except.error PyErr.assertionError :=
  ⟨by decide, keyInit_odd_flat_errors _ (by decide)⟩

/-- C8: an even-length flattened key specification produces exactly the
path produced from the equivalent (kind, identifier) pair list —
`Key.__init__` chunks the flat sequence into the same pairs and runs the
same classification loop. -/
theorem keyInit_flat_eq_pairs (flat : List PyVal) (h : flat.length % 2 = 0) :
    keyInit flat Option.none Option.none Option.none false =
    keyInit [] (Option.some (chunkPairs flat)) Option.none Option.none false := by
  cases flat with
  | nil => rfl
  | cons x xs =>
    cases xs with
    | nil => simp at h
    | cons y rest =>
      simp only [keyInit, truthy, chunkPairs]
      simp [h]
      intro hc
      simp at h
      omega

theorem keyInit_flat_eq_pairs_witness :
    ([PyVal.str "Person", PyVal.int 1, PyVal.str "Address", PyVal.str "home"].length % 2 = 0) ∧
    keyInit [PyVal.str "Person", PyVal.int 1, PyVal.str "Address", PyVal.str "home"]
        Option.none Option.none Option.none false =
    keyInit []
        (Option.some [(PyVal.str "Person", PyVal.int 1),
                      (PyVal.str "Address", PyVal.str "home")])
        Option.none Option.none false :=
  ⟨by decide, keyInit_flat_eq_pairs _ (by decide)⟩

/-- C9: the stored `_default` is dead configuration: reading an unset
field returns None (never the declared default: `Property.__get__` takes
no configuration beyond the storage name), and validation, the
attribute-set pipeline and the pre-put hook are all invariant under
changing the declared default. -/
theorem default_never_consulted (k : PropKind) (cfg : PConfig) (d value : PyVal)
    (now : DT) (st : Option PyVal) (a b : Bool) :
    pget k Option.none = Except.ok PyVal.none ∧
    validate k { cfg with default := d } value = validate k cfg value ∧
    pset k { cfg with default := d } value = pset k cfg value ∧
    dateTimePrepareForPut ⟨{ cfg with default := d }, a, b⟩ now st =
      dateTimePrepareForPut ⟨cfg, a, b⟩ now st := by
  cases cfg
  exact ⟨rfl, rfl, rfl, rfl⟩

/-- C10: the choice-set assert runs BEFORE the None short-circuit in
`Property.validate`, so a Property whose choice set lacks None rejects
the absent value even when not required, and the attribute-set path can
never store None for such a field. -/
theorem choices_reject_none_before_shortcircuit (k : PropKind) (cfg : PConfig)
    (cs : List PyVal) (hch : cfg.choices = Option.some cs) (hn : PyVal.none ∉ cs) :
    validate k cfg PyVal.none = Except.error PyErr.assertionError ∧
    pset k cfg PyVal.none = Except.error PyErr.assertionError := by
  have hc : choiceCheck cfg.choices PyVal.none = false := by
    rw [hch]; simp [choiceCheck, hn]
  refine ⟨?_, ?_⟩
  · unfold validate
    rw [hc]
    simp
  · unfold pset validate
    rw [hc]
    simp

theorem choices_reject_none_before_shortcircuit_witness :
    ({ choices := Option.some [PyVal.int 1] } : PConfig).choices =
        Option.some [PyVal.int 1] ∧
    PyVal.none ∉ [PyVal.int 1] ∧
    validate PropKind.base { choices := Option.some [PyVal.int 1] } PyVal.none =
      Except.error PyErr.assertionError ∧
    pset PropKind.base { choices := Option.some [PyVal.int 1] } PyVal.none =
      Except.error PyErr.assertionError := by
  have h := choices_reject_none_before_shortcircuit PropKind.base
      { choices := Option.some [PyVal.int 1] } [PyVal.int 1] rfl (by decide)
  exact ⟨rfl, by decide, h.1, h.2⟩

/-- C5 counterexample: the claim quantifies over EVERY DateTimeProperty
with `auto_now_add=True`; for a required one with the field absent, the
pre-put hook's `setattr` runs `validate`, whose misplaced required
assert (see the C1 theorem) rejects the freshly stamped present value,
so `_prepare_for_put` aborts with the assertion failure instead of
leaving the field set — the field is NOT "set to the current timestamp
(non-absent afterward)". -/
theorem dateTimePrepareForPut_required_cex :
    dateTimePrepareForPut ⟨{ required := true }, true, false⟩
        ⟨2020, 1, 1, 0, 0, 0, 0⟩ Option.none =
      Except.error PyErr.assertionError :=
  rfl

/-- C5 amended: for every DateTimeProperty with `auto_now_add=True`
whose validation pipeline accepts the fresh timestamp unchanged (in
particular one that is not required — the inverted required assert
rejects every present value — has no constraining choice set and no
transforming custom validator), the pre-put hook fills an absent field
with the current timestamp and leaves an already-set value unchanged;
with `auto_now=True` (same proviso) the field is overwritten with the
current timestamp on every pre-put call regardless of prior value. -/
theorem dateTimePrepareForPut_spec (c : DateTimeConfig) (now : DT) (st : Option PyVal)
    (hv : validate PropKind.datetime c.base (PyVal.datetime now) =
            Except.ok (PyVal.datetime now)) :
    (c.auto_now = false → c.auto_now_add = true →
      ((st = Option.none ∨ st = Option.some PyVal.none →
          dateTimePrepareForPut c now st =
            Except.ok (Option.some (PyVal.datetime now))) ∧
       (∀ v, st = Option.some v → v ≠ PyVal.none →
          dateTimePrepareForPut c now st = Except.ok st))) ∧
    (c.auto_now = true →
      dateTimePrepareForPut c now st =
        Except.ok (Option.some (PyVal.datetime now))) := by
  have hps : pset PropKind.datetime c.base (PyVal.datetime now) =
      Except.ok (PyVal.datetime now) :=
    pset_datetime_of_validate c.base _ (by simp) hv
  have hpg := pget_datetime_eq st
  refine ⟨?_, ?_⟩
  · intro han haa
    refine ⟨?_, ?_⟩
    · intro habs
      have hin : instGet st = PyVal.none := by
        rcases habs with h1 | h1 <;> simp [h1, instGet]
      simp [dateTimePrepareForPut, hpg, hin, haa, han, hps]
    · intro v hst hv0
      have hin : instGet st = v := by simp [hst, instGet]
      simp [dateTimePrepareForPut, hpg, hin, hv0, han]
  · intro han
    by_cases hadd : instGet st = PyVal.none ∧ c.auto_now_add = true
    · simp [dateTimePrepareForPut, hpg, hadd.1, hadd.2, han, hps]
    · simp [dateTimePrepareForPut, hpg, hadd, han, hps]

theorem dateTimePrepareForPut_spec_witness :
    validate PropKind.datetime ({} : PConfig) (PyVal.datetime ⟨2020, 1, 1, 0, 0, 0, 0⟩) =
        Except.ok (PyVal.datetime ⟨2020, 1, 1, 0, 0, 0, 0⟩) ∧
    dateTimePrepareForPut ⟨{}, true, false⟩ ⟨2020, 1, 1, 0, 0, 0, 0⟩ Option.none =
        Except.ok (Option.some (PyVal.datetime ⟨2020, 1, 1, 0, 0, 0, 0⟩)) ∧
    dateTimePrepareForPut ⟨{}, false, true⟩ ⟨2020, 1, 1, 0, 0, 0, 0⟩
        (Option.some (PyVal.datetime ⟨1999, 12, 31, 23, 59, 59, 0⟩)) =
        Except.ok (Option.some (PyVal.datetime ⟨2020, 1, 1, 0, 0, 0, 0⟩)) := by
  refine ⟨rfl, ?_, ?_⟩
  · exact ((dateTimePrepareForPut_spec ⟨{}, true, false⟩ ⟨2020, 1, 1, 0, 0, 0, 0⟩
      Option.none rfl).1 rfl rfl).1 (Or.inl rfl)
  · exact (dateTimePrepareForPut_spec ⟨{}, false, true⟩ ⟨2020, 1, 1, 0, 0, 0, 0⟩
      (Option.some (PyVal.datetime ⟨1999, 12, 31, 23, 59, 59, 0⟩)) rfl).2 rfl
